import Mathlib

/-!
# Verification of the Kolmogorov flow-generation and downsampling engine

Shallow embedding of `fourierflow/builders/kolmogorov.py` (function
`generate_kolmogorov` and the two downsampling algorithms
`downsample_vorticity` and `downsample_velocity`).

Modelling conventions:
* Real-space arrays are an abstract type `A`; spectral (Fourier) arrays are
  an abstract type `Ahat`.  External numerical kernels from the `jax_cfd`
  library (`curl_2d`, `jnp.fft.rfftn` / `irfftn`, `filtered_velocity_field`,
  `vorticity_to_velocity`, `downsample_staggered_velocity`) are taken as
  function parameters: the repository treats them as black-box dependencies.
* Python dicts with string keys become association lists
  `List (String × A)` in insertion order; `del d[k]` becomes `List.eraseP`.
* A Python exception becomes an `Except` error value; wall-clock timing
  (`time.time()`), logging and the XLA cache clearing are side effects with
  no influence on the returned data and are not modelled.
-/

namespace Fourierflow

/-- `jax_cfd.base.grids.Grid`: shape per dimension and physical domain
extents.  `ndim` is the length of `shape`. -/
structure Grid where
  shape : List Nat
  domain : List (Rat × Rat)
deriving DecidableEq, Repr

/-- `Grid.ndim` is the number of dimensions, i.e. the length of `shape`. -/
def Grid.ndim (g : Grid) : Nat := g.shape.length

/-- A `jax_cfd` `GridVariable` as used by the builder: the only part the
builder ever touches is the `.data` array. -/
structure GridVariable (A : Type) where
  data : A
deriving DecidableEq, Repr

/-- `jax_cfd.base.boundaries.periodic_boundary_conditions(ndim)`: the value
is only ever built and passed to the (disabled) `wrap_velocities`, so only
its dimensionality is retained. -/
structure BoundaryConditions where
  ndim : Nat
deriving DecidableEq, Repr

/-- Source: `periodic_boundary_conditions(sim_grid.ndim)`. -/
def periodic_boundary_conditions (ndim : Nat) : BoundaryConditions := ⟨ndim⟩

/-- Source line `KEYS = ['vx', 'vy', 'vz']`. -/
def KEYS : List String := ["vx", "vy", "vz"]

/-- Source lines 25-26: the import of `wrap_velocities` from
`jax_cfd.base.initial_conditions` is commented out and the module-level name
is rebound to the `None` sentinel (`wrap_velocities = None`), disabling the
user-supplied-initial-field code path.  Calling it raises `TypeError`. -/
def wrap_velocities {A : Type} :
    Option (List A → Grid → List BoundaryConditions → List (GridVariable A)) :=
  none

/-- One entry of `out_sizes`: a dict `{'size': ..., 'k': ...}`. -/
structure OutSize where
  size : Nat
  k : Nat
deriving DecidableEq, Repr

/-- Source (generate_kolmogorov): the loop building `out_grids`, one
`Grid(shape=[o['size']] * sim_grid.ndim, domain=sim_grid.domain)` per
requested `(size, k)` key.  Python dict insertion order is kept as list
order. -/
def mk_out_grids (sim_grid : Grid) (out_sizes : List OutSize) :
    List ((Nat × Nat) × Grid) :=
  out_sizes.map fun o =>
    ((o.size, o.k), ⟨List.replicate sim_grid.ndim o.size, sim_grid.domain⟩)

/-- Source: `velocity_solve = vorticity_to_velocity(sim_grid) if
sim_grid.ndim == 2 else None`. -/
def mk_velocity_solve {Ahat : Type}
    (vorticity_to_velocity : Grid → Ahat → Ahat × Ahat) (sim_grid : Grid) :
    Option (Ahat → Ahat × Ahat) :=
  if sim_grid.ndim = 2 then some (vorticity_to_velocity sim_grid) else none

/-! ## Downsampling engine -/

/-- Modelled from the spec: `downsample_vorticity_hat` lives in
`fourierflow.utils`, a module of this repository that is not among the
provided sources; §4.5 specifies it as: truncate the Fourier representation
to the coarser grid's mode set and rescale to preserve the energy
normalization (`truncate`), perform the same vorticity→velocity solve at the
coarser resolution (`solveAt`), and inverse transform vorticity and both
velocity components to real space (`irfftn`).  The record it returns holds
`vx`, `vy` and `vorticity` (the caller's `del out['vorticity']` requires the
key to be present). -/
def downsample_vorticity_hat {A Ahat : Type}
    (irfftn : Ahat → A)
    (truncate : Grid → Ahat → Ahat)
    (solveAt : Grid → Ahat → Ahat × Ahat)
    (vorticity_hat : Ahat) (_velocity_solve : Ahat → Ahat × Ahat)
    (_sim_grid out_grid : Grid) : List (String × A) :=
  let hat := truncate out_grid vorticity_hat
  let vhat := solveAt out_grid hat
  [("vx", irfftn vhat.1), ("vy", irfftn vhat.2), ("vorticity", irfftn hat)]

/-- The body of the `for key, out_grid in out_grids.items()` loop of
`downsample_vorticity`: at native size solve for the velocity coefficients
and inverse-transform everything; otherwise delegate to
`downsample_vorticity_hat`; finally `del out['vorticity']` when
`out_vorticity` is false. -/
def vorticity_record {A Ahat : Type}
    (irfftn : Ahat → A)
    (truncate : Grid → Ahat → Ahat)
    (solveAt : Grid → Ahat → Ahat × Ahat)
    (sim_grid : Grid) (out_grid : Grid) (size : Nat)
    (velocity_solve : Ahat → Ahat × Ahat) (out_vorticity : Bool)
    (vorticity_hat : Ahat) : List (String × A) :=
  let out :=
    if size = sim_grid.shape.getD 0 0 then
      let vhat := velocity_solve vorticity_hat
      [("vx", irfftn vhat.1), ("vy", irfftn vhat.2),
       ("vorticity", irfftn vorticity_hat)]
    else
      downsample_vorticity_hat irfftn truncate solveAt vorticity_hat
        velocity_solve sim_grid out_grid
  if out_vorticity then out else out.eraseP (fun p => p.1 == "vorticity")

/-- Source: `downsample_vorticity(sim_grid, out_grids, velocity_solve,
out_vorticity, vorticity_hat)` — the spectral downsampling algorithm,
producing one record per requested `(size, k)` key. -/
def downsample_vorticity {A Ahat : Type}
    (irfftn : Ahat → A)
    (truncate : Grid → Ahat → Ahat)
    (solveAt : Grid → Ahat → Ahat × Ahat)
    (sim_grid : Grid) (out_grids : List ((Nat × Nat) × Grid))
    (velocity_solve : Ahat → Ahat × Ahat) (out_vorticity : Bool)
    (vorticity_hat : Ahat) : List ((Nat × Nat) × List (String × A)) :=
  out_grids.map fun kv =>
    (kv.1, vorticity_record irfftn truncate solveAt sim_grid kv.2 kv.1.1
      velocity_solve out_vorticity vorticity_hat)

/-- The body of the `for key, out_grid in out_grids.items()` loop of
`downsample_velocity`: at native size pass the velocity components through
unchanged (`out[KEYS[i]] = u[i].data`) and, in 2D with `out_vorticity`,
attach `curl_2d(u).data`; otherwise first restrict the staggered velocity
with `downsample_staggered_velocity` and compute the curl of the restricted
field. -/
def velocity_record {A : Type}
    (curl_2d : List (GridVariable A) → A)
    (downsample_staggered_velocity :
      Grid → Grid → List (GridVariable A) → List (GridVariable A))
    (sim_grid : Grid) (out_grid : Grid) (size : Nat) (out_vorticity : Bool)
    (u : List (GridVariable A)) : List (String × A) :=
  if size = sim_grid.shape.getD 0 0 then
    (KEYS.take sim_grid.ndim).zip (u.map (fun g => g.data)) ++
      (if sim_grid.ndim = 2 ∧ out_vorticity then [("vorticity", curl_2d u)]
       else [])
  else
    let u_new := downsample_staggered_velocity sim_grid out_grid u
    (KEYS.take sim_grid.ndim).zip (u_new.map (fun g => g.data)) ++
      (if sim_grid.ndim = 2 ∧ out_vorticity then
        [("vorticity", curl_2d u_new)]
       else [])

/-- Source: `downsample_velocity(sim_grid, out_grids, velocity_solve,
out_vorticity, u)` — the staggered real-space downsampling algorithm.  The
`velocity_solve` argument is accepted (for signature compatibility with the
generic `downsample_fn` slot) but never used, exactly as in the source. -/
def downsample_velocity {A Ahat : Type}
    (curl_2d : List (GridVariable A) → A)
    (downsample_staggered_velocity :
      Grid → Grid → List (GridVariable A) → List (GridVariable A))
    (sim_grid : Grid) (out_grids : List ((Nat × Nat) × Grid))
    (_velocity_solve : Option (Ahat → Ahat × Ahat)) (out_vorticity : Bool)
    (u : List (GridVariable A)) : List ((Nat × Nat) × List (String × A)) :=
  out_grids.map fun kv =>
    (kv.1, velocity_record curl_2d downsample_staggered_velocity sim_grid
      kv.2 kv.1.1 out_vorticity u)

/-! ## Time integrator (jax_cfd.base.funcutils) -/

/-- Modelled from the spec: `repeated` from `jax_cfd.base.funcutils` (an
external dependency, not among the provided sources); §4.4: "returns a
function equivalent to applying `step` `innerSteps` times in sequence". -/
def repeated {S : Type} (step : S → S) (steps : Nat) : S → S :=
  fun s => step^[steps] s

/-- Modelled from the spec: `trajectory` from `jax_cfd.base.funcutils` (an
external dependency, not among the provided sources); §4.4: "applies
`macroStep` `outerSteps` times; after every application, calls
`project(state)` and collects the result in order.  If `project` returns a
sentinel ignore value, nothing is appended"; the final state is returned
together with the collected projections.  The sentinel is `Option.none`. -/
def trajectory {S P : Type} (step : S → S) (steps : Nat)
    (project : S → Option P) (s : S) : S × List P :=
  match steps with
  | 0 => (s, [])
  | n + 1 =>
    let s1 := step s
    let rest := trajectory step n project s1
    (rest.1,
      (match project s1 with
       | none => []
       | some p => [p]) ++ rest.2)

/-! ## generate_kolmogorov -/

/-- The state threaded through the rollout: either the rfft of the vorticity
(`method == 'pseudo_spectral'`) or the staggered velocity tuple. -/
inductive KState (A Ahat : Type) where
  | spectral (vhat : Ahat)
  | velocity (v : List (GridVariable A))
deriving DecidableEq, Repr

/-- A user-supplied `initial_field` dataset: per-axis velocity arrays keyed
by the fixed axis names of `KEYS`, plus a `vorticity` array. -/
structure InitField (A : Type) where
  fields : List (String × A)
  vorticity : A
deriving DecidableEq, Repr

/-- Python exceptions that `generate_kolmogorov` can raise while building
the initial state from a user-supplied field. -/
inductive GenError where
  /-- `initial_field[KEYS[i]]` with a key that is not in the dataset (or
  `KEYS[i]` with `i ≥ 3`). -/
  | keyError
  /-- `wrap_velocities(u, sim_grid, bcs)` where `wrap_velocities` is the
  `None` sentinel: `TypeError: 'NoneType' object is not callable`. -/
  | noneNotCallable
deriving DecidableEq, Repr

/-- What a successful `generate_kolmogorov` call returns (elapsed wall-clock
time, the second tuple component, is not modelled): either the single
multi-resolution record produced by the `warmup_steps > 0` branch, or the
recorded rollout produced by the `outer_steps > 0` branch. -/
inductive GenResult (P : Type) where
  | warmup (outs : P)
  | rollout (trajs : List P)
deriving DecidableEq, Repr

/-- The loop `for i in range(sim_grid.ndim): u.append(initial_field[KEYS[i]].data)`:
`none` models the KeyError/IndexError raised when a lookup fails. -/
def build_u {A : Type} (initial_field : InitField A) (ndim : Nat) :
    Option (List A) :=
  (List.range ndim).mapM fun i =>
    (KEYS.get? i).bind fun key => initial_field.fields.lookup key

/-- The initial rollout state for the random-initial-condition path:
`state = jnp.fft.rfftn(vorticity0)` with `vorticity0 = curl_2d(v0).data`
when `method == 'pseudo_spectral'`, else `state = v0`. -/
def mk_init_state {A Ahat : Type}
    (curl_2d : List (GridVariable A) → A) (rfftn : A → Ahat)
    (method : String) (v0 : List (GridVariable A)) : KState A Ahat :=
  if method = "pseudo_spectral" then .spectral (rfftn (curl_2d v0))
  else .velocity v0

/-- Source: `generate_kolmogorov` (fourierflow/builders/kolmogorov.py).
The external kernels `vorticity_to_velocity`, `filtered_velocity_field`,
`curl_2d` and `rfftn` are the leading function parameters; the remaining
parameters follow the Python signature.  `step_fn` is taken after hydra's
`instantiate`, i.e. already as a function.  The returned elapsed wall-clock
time, the XLA cache clearing and logging are not modelled.  `Except.ok none`
models the implicit `return None` reached when both step counts are zero. -/
def generate_kolmogorov {A Ahat P : Type}
    (vorticity_to_velocity : Grid → Ahat → Ahat × Ahat)
    (filtered_velocity_field :
      Nat → Grid → Rat → Rat → List (GridVariable A))
    (curl_2d : List (GridVariable A) → A)
    (rfftn : A → Ahat)
    (sim_grid : Grid)
    (out_sizes : List OutSize)
    (method : String)
    (step_fn : KState A Ahat → KState A Ahat)
    (downsample_fn :
      Grid → List ((Nat × Nat) × Grid) → Option (Ahat → Ahat × Ahat) →
        Bool → KState A Ahat → P)
    (seed : Nat)
    (initial_field : Option (InitField A))
    (peak_wavenumber max_velocity : Rat)
    (inner_steps outer_steps warmup_steps : Nat)
    (out_vorticity : Bool) :
    Except GenError (Option (GenResult P)) := do
  let velocity_solve := mk_velocity_solve vorticity_to_velocity sim_grid
  let out_grids := mk_out_grids sim_grid out_sizes
  let downsample := downsample_fn sim_grid out_grids velocity_solve
    out_vorticity
  let state : KState A Ahat ←
    match initial_field with
    | none =>
      let v0 := filtered_velocity_field seed sim_grid max_velocity
        peak_wavenumber
      pure (mk_init_state curl_2d rfftn method v0)
    | some field =>
      match build_u field sim_grid.ndim with
      | none => throw GenError.keyError
      | some u =>
        let bcs := List.replicate sim_grid.ndim
          (periodic_boundary_conditions sim_grid.ndim)
        match @wrap_velocities A with
        | none => throw GenError.noneNotCallable
        | some wrapv =>
          let v0 := wrapv u sim_grid bcs
          pure (if method = "pseudo_spectral" then
            .spectral (rfftn field.vorticity) else .velocity v0)
  let outer_step_fn := repeated step_fn inner_steps
  if warmup_steps > 0 then
    let r := trajectory outer_step_fn warmup_steps
      (fun _ => (none : Option P)) state
    return some (GenResult.warmup (downsample r.1))
  else if outer_steps > 0 then
    let r := trajectory outer_step_fn outer_steps
      (fun s => some (downsample s)) state
    return some (GenResult.rollout r.2)
  else
    return none

/-! ## Concrete instantiation (used by witnesses and counterexamples) -/

/-- The `method` string selecting the spectral representation. -/
def psm : String := "pseudo_spectral"

/-- Concrete 2D native grid of size 2 used to exercise the definitions. -/
def cGrid : Grid := ⟨[2, 2], [(0, 1), (0, 1)]⟩

/-- Concrete requested output sizes: the native size with stride 1. -/
def cOutSizes : List OutSize := [⟨2, 1⟩]

/-- Concrete stand-in for `vorticity_to_velocity`: arrays are their shape
lists, the solve returns the pair of its input. -/
def cV2V : Grid → List Nat → List Nat × List Nat := fun _ x => (x, x)

/-- Concrete stand-in for `filtered_velocity_field`: two components whose
data records the grid shape. -/
def cFVF : Nat → Grid → Rat → Rat → List (GridVariable (List Nat)) :=
  fun _ g _ _ => [⟨g.shape⟩, ⟨g.shape⟩]

/-- Concrete stand-in for `curl_2d(·).data`. -/
def cCurl : List (GridVariable (List Nat)) → List Nat :=
  fun v => (v.headD ⟨[]⟩).data

/-- Concrete stand-in for `jnp.fft.rfftn`. -/
def cRfftn : List Nat → List Nat := id

/-- Concrete step function: the identity macro-step. -/
def cStep : KState (List Nat) (List Nat) → KState (List Nat) (List Nat) :=
  id

/-- Concrete projector: the length of the state's leading array. -/
def cDown : Grid → List ((Nat × Nat) × Grid) →
    Option (List Nat → List Nat × List Nat) → Bool →
    KState (List Nat) (List Nat) → Nat :=
  fun _ _ _ _ st =>
    match st with
    | .spectral v => v.length
    | .velocity v => v.length

/-- `generate_kolmogorov` at the concrete instantiation, leaving the method,
the initial field and the two outer step counts free. -/
def cGen (method : String) (initial_field : Option (InitField (List Nat)))
    (warmup_steps outer_steps : Nat) :
    Except GenError (Option (GenResult Nat)) :=
  generate_kolmogorov cV2V cFVF cCurl cRfftn cGrid cOutSizes method cStep
    cDown 0 initial_field 4 7 1 outer_steps warmup_steps true

/-- A concrete user-supplied initial field with exactly the two per-axis
arrays that the 2D grid requires. -/
def cField : InitField (List Nat) :=
  ⟨[("vx", [2, 2]), ("vy", [2, 2])], [2, 2]⟩

/-- Concrete stand-in for the spectral truncation: the result records the
coarser grid's shape. -/
def cTrunc : Grid → List Nat → List Nat := fun og _ => og.shape

/-- Concrete stand-in for the coarse-resolution vorticity→velocity solve. -/
def cSolveAt : Grid → List Nat → List Nat × List Nat := fun _ x => (x, x)

/-- Concrete stand-in for `downsample_staggered_velocity`: two components
whose data records the coarser grid's shape. -/
def cDsv : Grid → Grid → List (GridVariable (List Nat)) →
    List (GridVariable (List Nat)) :=
  fun _ og _ => [⟨og.shape⟩, ⟨og.shape⟩]

/-- Concrete native spectral vorticity array. -/
def cVhat : List Nat := [2, 2]

/-- Concrete staggered velocity component. -/
def cU0 : GridVariable (List Nat) := ⟨[2, 2]⟩

/-- Concrete requested output sizes containing both the native size and a
strictly coarser one. -/
def cOutSizes2 : List OutSize := [⟨2, 1⟩, ⟨1, 1⟩]

/-- The coarser output grid built by `mk_out_grids` for size 1. -/
def cCoarseGrid : Grid := ⟨[1, 1], [(0, 1), (0, 1)]⟩

/-- Tests whether a `generate_kolmogorov` result is a recorded rollout of
exactly `n` entries. -/
def is_rollout_of_len {P : Type} (r : Except GenError (Option (GenResult P)))
    (n : Nat) : Bool :=
  match r with
  | .ok (some (.rollout l)) => l.length == n
  | _ => false

/-- Tests whether a `generate_kolmogorov` result is a raised error. -/
def is_error {P : Type} (r : Except GenError (Option (GenResult P))) : Bool :=
  match r with
  | .error _ => true
  | .ok _ => false

/-! ## Structural lemmas -/

theorem trajectory_fst {S P : Type} (step : S → S) (project : S → Option P)
    (n : Nat) (s : S) : (trajectory step n project s).1 = step^[n] s := by
  induction n generalizing s with
  | zero => rfl
  | succ k ih => simp [trajectory, ih, Function.iterate_succ_apply]

theorem trajectory_snd_ignore {S P : Type} (step : S → S) (n : Nat) (s : S) :
    (trajectory step n (fun _ => (none : Option P)) s).2 = [] := by
  induction n generalizing s with
  | zero => rfl
  | succ k ih => simp [trajectory, ih]

theorem trajectory_snd_proj {S P : Type} (step : S → S) (g : S → P) (n : Nat)
    (s : S) :
    (trajectory step n (fun t => some (g t)) s).2 =
      (List.range n).map (fun i => g (step^[i + 1] s)) := by
  induction n generalizing s with
  | zero => rfl
  | succ k ih =>
    simp [trajectory, ih, List.range_succ_eq_map, List.map_map,
      Function.iterate_succ_apply, Function.comp]

/-- Unfolding `generate_kolmogorov` on the random-initial-condition path
with `warmup_steps > 0`: the warmup branch returns early with the single
downsampled final warmup state. -/
theorem gen_eq_warmup {A Ahat P : Type}
    (v2v : Grid → Ahat → Ahat × Ahat)
    (fvf : Nat → Grid → Rat → Rat → List (GridVariable A))
    (curl : List (GridVariable A) → A) (rfftn : A → Ahat)
    (sim_grid : Grid) (out_sizes : List OutSize) (method : String)
    (step_fn : KState A Ahat → KState A Ahat)
    (downsample_fn : Grid → List ((Nat × Nat) × Grid) →
      Option (Ahat → Ahat × Ahat) → Bool → KState A Ahat → P)
    (seed : Nat) (peak_wavenumber max_velocity : Rat)
    (inner_steps outer_steps warmup_steps : Nat) (out_vorticity : Bool)
    (hw : 0 < warmup_steps) :
    generate_kolmogorov v2v fvf curl rfftn sim_grid out_sizes method step_fn
      downsample_fn seed none peak_wavenumber max_velocity inner_steps
      outer_steps warmup_steps out_vorticity =
    Except.ok (some (GenResult.warmup
      (downsample_fn sim_grid (mk_out_grids sim_grid out_sizes)
        (mk_velocity_solve v2v sim_grid) out_vorticity
        ((repeated step_fn inner_steps)^[warmup_steps]
          (mk_init_state curl rfftn method
            (fvf seed sim_grid max_velocity peak_wavenumber)))))) := by
  obtain ⟨w, rfl⟩ : ∃ w, warmup_steps = w + 1 :=
    ⟨warmup_steps - 1, (Nat.succ_pred_eq_of_pos hw).symm⟩
  simp [generate_kolmogorov, trajectory_fst]
  rfl

/-- Unfolding `generate_kolmogorov` on the random-initial-condition path
with `warmup_steps = 0 < outer_steps`: the recorded rollout runs with the
downsampler as projector. -/
theorem gen_eq_rollout {A Ahat P : Type}
    (v2v : Grid → Ahat → Ahat × Ahat)
    (fvf : Nat → Grid → Rat → Rat → List (GridVariable A))
    (curl : List (GridVariable A) → A) (rfftn : A → Ahat)
    (sim_grid : Grid) (out_sizes : List OutSize) (method : String)
    (step_fn : KState A Ahat → KState A Ahat)
    (downsample_fn : Grid → List ((Nat × Nat) × Grid) →
      Option (Ahat → Ahat × Ahat) → Bool → KState A Ahat → P)
    (seed : Nat) (peak_wavenumber max_velocity : Rat)
    (inner_steps outer_steps : Nat) (out_vorticity : Bool)
    (ho : 0 < outer_steps) :
    generate_kolmogorov v2v fvf curl rfftn sim_grid out_sizes method step_fn
      downsample_fn seed none peak_wavenumber max_velocity inner_steps
      outer_steps 0 out_vorticity =
    Except.ok (some (GenResult.rollout
      ((List.range outer_steps).map (fun i =>
        downsample_fn sim_grid (mk_out_grids sim_grid out_sizes)
          (mk_velocity_solve v2v sim_grid) out_vorticity
          ((repeated step_fn inner_steps)^[i + 1]
            (mk_init_state curl rfftn method
              (fvf seed sim_grid max_velocity peak_wavenumber))))))) := by
  obtain ⟨o, rfl⟩ : ∃ o, outer_steps = o + 1 :=
    ⟨outer_steps - 1, (Nat.succ_pred_eq_of_pos ho).symm⟩
  simp [generate_kolmogorov, trajectory_snd_proj]
  rfl

/-- Unfolding `generate_kolmogorov` with both step counts zero: the function
falls through both branches and returns the implicit `None`. -/
theorem gen_eq_degenerate {A Ahat P : Type}
    (v2v : Grid → Ahat → Ahat × Ahat)
    (fvf : Nat → Grid → Rat → Rat → List (GridVariable A))
    (curl : List (GridVariable A) → A) (rfftn : A → Ahat)
    (sim_grid : Grid) (out_sizes : List OutSize) (method : String)
    (step_fn : KState A Ahat → KState A Ahat)
    (downsample_fn : Grid → List ((Nat × Nat) × Grid) →
      Option (Ahat → Ahat × Ahat) → Bool → KState A Ahat → P)
    (seed : Nat) (peak_wavenumber max_velocity : Rat)
    (inner_steps : Nat) (out_vorticity : Bool) :
    generate_kolmogorov v2v fvf curl rfftn sim_grid out_sizes method step_fn
      downsample_fn seed none peak_wavenumber max_velocity inner_steps
      0 0 out_vorticity = Except.ok none := by
  simp [generate_kolmogorov]
  rfl

/-- Unfolding `generate_kolmogorov` on the user-supplied-field path: when
every per-axis lookup succeeds the call reaches `wrap_velocities` — the
`None` sentinel — and raises `TypeError`; when a lookup fails it raises
`KeyError` first.  Either way the call fails before any time stepping. -/
theorem gen_user_field_err {A Ahat P : Type}
    (v2v : Grid → Ahat → Ahat × Ahat)
    (fvf : Nat → Grid → Rat → Rat → List (GridVariable A))
    (curl : List (GridVariable A) → A) (rfftn : A → Ahat)
    (sim_grid : Grid) (out_sizes : List OutSize) (method : String)
    (step_fn : KState A Ahat → KState A Ahat)
    (downsample_fn : Grid → List ((Nat × Nat) × Grid) →
      Option (Ahat → Ahat × Ahat) → Bool → KState A Ahat → P)
    (seed : Nat) (field : InitField A) (peak_wavenumber max_velocity : Rat)
    (inner_steps outer_steps warmup_steps : Nat) (out_vorticity : Bool) :
    generate_kolmogorov v2v fvf curl rfftn sim_grid out_sizes method step_fn
      downsample_fn seed (some field) peak_wavenumber max_velocity
      inner_steps outer_steps warmup_steps out_vorticity =
    Except.error (match build_u field sim_grid.ndim with
      | none => GenError.keyError
      | some _ => GenError.noneNotCallable) := by
  cases h : build_u field sim_grid.ndim with
  | none =>
    simp only [generate_kolmogorov, h, wrap_velocities, throw, throwThe,
      MonadExceptOf.throw]
    rfl
  | some u =>
    simp only [generate_kolmogorov, h, wrap_velocities, throw, throwThe,
      MonadExceptOf.throw]
    rfl

theorem lookup_append_left {α β : Type} [BEq α] (k : α)
    (l1 l2 : List (α × β)) (h : l1.lookup k = none) :
    (l1 ++ l2).lookup k = l2.lookup k := by
  induction l1 with
  | nil => rfl
  | cons p rest ih =>
    rw [List.cons_append]
    rw [List.lookup] at h ⊢
    cases hk : k == p.1 with
    | true => simp [hk] at h
    | false =>
      simp only [hk] at h ⊢
      exact ih h

theorem lookup_vorticity_zip_none {A : Type} (l : List A) :
    ((KEYS.take 2).zip l).lookup ("vorticity") = none := by
  match l with
  | [] => rfl
  | [_] => rfl
  | _ :: _ :: _ => rfl

/-! ## Claim theorems -/

/-- C3: for every macro-step, every projector that never returns the
sentinel ignore value, and every `outerSteps ≥ 0`,
`rollout(macroStep, outerSteps, project)` returns exactly `outerSteps`
recorded entries, in step order (the i-th entry is the projection of the
state after i+1 macro-steps); with `outerSteps = 0` it returns an empty
sequence. -/
theorem rollout_exact_length {S P : Type} (mstep : S → S)
    (project : S → Option P) (g : S → P) (outer_steps : Nat) (s0 : S)
    (hg : ∀ s, project s = some (g s)) :
    ((trajectory mstep outer_steps project s0).2).length = outer_steps ∧
    (trajectory mstep outer_steps project s0).2 =
      (List.range outer_steps).map (fun i => g (mstep^[i + 1] s0)) ∧
    (trajectory mstep 0 project s0).2 = [] := by
  have he : project = fun t => some (g t) := funext hg
  subst he
  refine ⟨?_, trajectory_snd_proj mstep g outer_steps s0, rfl⟩
  rw [trajectory_snd_proj]
  simp

/-- Witness for `rollout_exact_length` at the identity macro-step over `Nat`
with a constant projector and three outer steps. -/
theorem rollout_exact_length_witness :
    ((trajectory (fun n : Nat => n + 1) 3 (fun n => some n) 0).2).length = 3 ∧
    (trajectory (fun n : Nat => n + 1) 3 (fun n => some n) 0).2 =
      (List.range 3).map (fun i => (fun n : Nat => n + 1)^[i + 1] 0) ∧
    (trajectory (fun n : Nat => n + 1) 0 (fun n => some n) 0).2 = [] := by
  have h := rollout_exact_length (fun n : Nat => n + 1) (fun n => some n)
    (fun n => n) 3 0 (fun _ => rfl)
  exact h

/-- C1 counterexample: at the concrete instantiation with
`warmupSteps = 1 > 0` and `outerSteps = 1 > 0` on the random-field path,
`generate_kolmogorov` returns the single warmup record — not the ordered
list of `outerSteps` multi-resolution records that the claim promises (the
recorded phase never runs after warmup: the warmup branch returns early). -/
theorem warmup_then_recorded_cex :
    cGen psm none 1 1 = Except.ok (some (GenResult.warmup 2)) ∧
    is_rollout_of_len (cGen psm none 1 1) 1 = false := ⟨rfl, rfl⟩

/-- C1 (amended): for every call with `warmupSteps > 0` (whatever
`outerSteps` is), the warmup phase runs the macro-step `warmupSteps` times
discarding per-step projections and keeping only the final state, and the
function then returns the single multi-resolution record obtained by
applying the downsampler to that final state; the recorded phase is not
executed. -/
theorem warmup_branch_returns_single_record {A Ahat P : Type}
    (v2v : Grid → Ahat → Ahat × Ahat)
    (fvf : Nat → Grid → Rat → Rat → List (GridVariable A))
    (curl : List (GridVariable A) → A) (rfftn : A → Ahat)
    (sim_grid : Grid) (out_sizes : List OutSize) (method : String)
    (step_fn : KState A Ahat → KState A Ahat)
    (downsample_fn : Grid → List ((Nat × Nat) × Grid) →
      Option (Ahat → Ahat × Ahat) → Bool → KState A Ahat → P)
    (seed : Nat) (peak_wavenumber max_velocity : Rat)
    (inner_steps outer_steps warmup_steps : Nat) (out_vorticity : Bool)
    (hw : 0 < warmup_steps) :
    generate_kolmogorov v2v fvf curl rfftn sim_grid out_sizes method step_fn
      downsample_fn seed none peak_wavenumber max_velocity inner_steps
      outer_steps warmup_steps out_vorticity =
    Except.ok (some (GenResult.warmup
      (downsample_fn sim_grid (mk_out_grids sim_grid out_sizes)
        (mk_velocity_solve v2v sim_grid) out_vorticity
        ((repeated step_fn inner_steps)^[warmup_steps]
          (mk_init_state curl rfftn method
            (fvf seed sim_grid max_velocity peak_wavenumber)))))) :=
  gen_eq_warmup v2v fvf curl rfftn sim_grid out_sizes method step_fn
    downsample_fn seed peak_wavenumber max_velocity inner_steps outer_steps
    warmup_steps out_vorticity hw

/-- Witness for `warmup_branch_returns_single_record` at the concrete
instantiation with three warmup steps and five (ignored) outer steps. -/
theorem warmup_branch_returns_single_record_witness :
    cGen psm none 3 5 = Except.ok (some (GenResult.warmup 2)) := by
  have h := warmup_branch_returns_single_record cV2V cFVF cCurl cRfftn cGrid
    cOutSizes psm cStep cDown 0 4 7 1 5 3 true (by decide)
  exact h.trans rfl

/-- C2: for every call with `warmupSteps > 0` (on the random-field path),
the result is the single per-step projection record obtained by downsampling
the state reached after the warmup rollout. -/
theorem warmup_result_is_downsampled_final_state {A Ahat P : Type}
    (v2v : Grid → Ahat → Ahat × Ahat)
    (fvf : Nat → Grid → Rat → Rat → List (GridVariable A))
    (curl : List (GridVariable A) → A) (rfftn : A → Ahat)
    (sim_grid : Grid) (out_sizes : List OutSize) (method : String)
    (step_fn : KState A Ahat → KState A Ahat)
    (downsample_fn : Grid → List ((Nat × Nat) × Grid) →
      Option (Ahat → Ahat × Ahat) → Bool → KState A Ahat → P)
    (seed : Nat) (peak_wavenumber max_velocity : Rat)
    (inner_steps outer_steps warmup_steps : Nat) (out_vorticity : Bool)
    (hw : 0 < warmup_steps) :
    ∃ outs,
      generate_kolmogorov v2v fvf curl rfftn sim_grid out_sizes method
        step_fn downsample_fn seed none peak_wavenumber max_velocity
        inner_steps outer_steps warmup_steps out_vorticity =
        Except.ok (some (GenResult.warmup outs)) ∧
      outs = downsample_fn sim_grid (mk_out_grids sim_grid out_sizes)
        (mk_velocity_solve v2v sim_grid) out_vorticity
        ((trajectory (repeated step_fn inner_steps) warmup_steps
          (fun _ => (none : Option P))
          (mk_init_state curl rfftn method
            (fvf seed sim_grid max_velocity peak_wavenumber))).1) := by
  refine ⟨_, gen_eq_warmup v2v fvf curl rfftn sim_grid out_sizes method
    step_fn downsample_fn seed peak_wavenumber max_velocity inner_steps
    outer_steps warmup_steps out_vorticity hw, ?_⟩
  rw [trajectory_fst]

/-- Witness for `warmup_result_is_downsampled_final_state` at the concrete
instantiation with one warmup step. -/
theorem warmup_result_is_downsampled_final_state_witness :
    ∃ outs, cGen psm none 1 0 = Except.ok (some (GenResult.warmup outs)) ∧
      outs = cDown cGrid (mk_out_grids cGrid cOutSizes)
        (mk_velocity_solve cV2V cGrid) true
        ((trajectory (repeated cStep 1) 1
          (fun _ => (none : Option Nat))
          (mk_init_state cCurl cRfftn psm (cFVF 0 cGrid 7 4))).1) := by
  have h := warmup_result_is_downsampled_final_state cV2V cFVF cCurl cRfftn
    cGrid cOutSizes psm cStep cDown 0 4 7 1 0 1 true (by decide)
  exact h

/-- C9: when both `warmupSteps = 0` and `outerSteps = 0` (random-field
path), `generate_kolmogorov` returns no trajectory — the implicit Python
`None` — and raises no error: the degenerate inputs are not rejected. -/
theorem degenerate_returns_none {A Ahat P : Type}
    (v2v : Grid → Ahat → Ahat × Ahat)
    (fvf : Nat → Grid → Rat → Rat → List (GridVariable A))
    (curl : List (GridVariable A) → A) (rfftn : A → Ahat)
    (sim_grid : Grid) (out_sizes : List OutSize) (method : String)
    (step_fn : KState A Ahat → KState A Ahat)
    (downsample_fn : Grid → List ((Nat × Nat) × Grid) →
      Option (Ahat → Ahat × Ahat) → Bool → KState A Ahat → P)
    (seed : Nat) (peak_wavenumber max_velocity : Rat)
    (inner_steps : Nat) (out_vorticity : Bool) :
    generate_kolmogorov v2v fvf curl rfftn sim_grid out_sizes method step_fn
      downsample_fn seed none peak_wavenumber max_velocity inner_steps
      0 0 out_vorticity = Except.ok none :=
  gen_eq_degenerate v2v fvf curl rfftn sim_grid out_sizes method step_fn
    downsample_fn seed peak_wavenumber max_velocity inner_steps out_vorticity

/-- C5 counterexample: at the concrete instantiation, the unrecognized
method string `bogus` does not raise any error — `generate_kolmogorov`
proceeds down the staggered-velocity branch and returns a result — so no
`UnsupportedMethodError` validation exists. -/
theorem method_validation_cex :
    is_error (cGen ("bogus") none 1 0) = false ∧
    cGen ("bogus") none 1 0 = Except.ok (some (GenResult.warmup 2)) :=
  ⟨rfl, rfl⟩

/-- C5 (amended): the `method` argument is not validated: a value not
recognized by the dispatch is silently treated as the non-spectral
(staggered velocity) mode and the call proceeds without raising any
error. -/
theorem no_method_validation {A Ahat P : Type}
    (v2v : Grid → Ahat → Ahat × Ahat)
    (fvf : Nat → Grid → Rat → Rat → List (GridVariable A))
    (curl : List (GridVariable A) → A) (rfftn : A → Ahat)
    (sim_grid : Grid) (out_sizes : List OutSize) (method : String)
    (step_fn : KState A Ahat → KState A Ahat)
    (downsample_fn : Grid → List ((Nat × Nat) × Grid) →
      Option (Ahat → Ahat × Ahat) → Bool → KState A Ahat → P)
    (seed : Nat) (peak_wavenumber max_velocity : Rat)
    (inner_steps outer_steps warmup_steps : Nat) (out_vorticity : Bool)
    (hm : method ≠ psm) :
    (∃ r, generate_kolmogorov v2v fvf curl rfftn sim_grid out_sizes method
      step_fn downsample_fn seed none peak_wavenumber max_velocity
      inner_steps outer_steps warmup_steps out_vorticity = Except.ok r) ∧
    mk_init_state curl rfftn method
      (fvf seed sim_grid max_velocity peak_wavenumber) =
      KState.velocity (fvf seed sim_grid max_velocity peak_wavenumber) := by
  constructor
  · by_cases hw : 0 < warmup_steps
    · exact ⟨_, gen_eq_warmup v2v fvf curl rfftn sim_grid out_sizes method
        step_fn downsample_fn seed peak_wavenumber max_velocity inner_steps
        outer_steps warmup_steps out_vorticity hw⟩
    · have hw0 : warmup_steps = 0 := Nat.eq_zero_of_not_pos hw
      subst hw0
      by_cases ho : 0 < outer_steps
      · exact ⟨_, gen_eq_rollout v2v fvf curl rfftn sim_grid out_sizes
          method step_fn downsample_fn seed peak_wavenumber max_velocity
          inner_steps outer_steps out_vorticity ho⟩
      · have ho0 : outer_steps = 0 := Nat.eq_zero_of_not_pos ho
        subst ho0
        exact ⟨_, gen_eq_degenerate v2v fvf curl rfftn sim_grid out_sizes
          method step_fn downsample_fn seed peak_wavenumber max_velocity
          inner_steps out_vorticity⟩
  · have : ¬ method = "pseudo_spectral" := hm
    simp [mk_init_state, this]

/-- Witness for `no_method_validation` at the concrete instantiation with
the unrecognized method string `bogus`. -/
theorem no_method_validation_witness :
    (∃ r, cGen ("bogus") none 0 2 = Except.ok r) ∧
    mk_init_state cCurl cRfftn ("bogus") (cFVF 0 cGrid 7 4) =
      KState.velocity (cFVF 0 cGrid 7 4) := by
  have h := no_method_validation cV2V cFVF cCurl cRfftn cGrid cOutSizes
    ("bogus") cStep cDown 0 4 7 1 2 0 true (by decide)
  exact h

/-- C4 counterexample: a user-supplied initial field whose number of
per-axis arrays equals `grid.ndim` (two fields, 2D grid) still fails — with
the `TypeError` from calling the `None`-valued `wrap_velocities` — instead
of returning a velocity state as the claim promises. -/
theorem from_user_field_cex :
    cField.fields.length = cGrid.ndim ∧
    cGen psm (some cField) 0 1 = Except.error GenError.noneNotCallable :=
  ⟨rfl, rfl⟩

/-- C4 (amended): the user-supplied-field path never returns a velocity
state: it always raises — the `TypeError` from the disabled `None`-valued
`wrap_velocities` when every per-axis lookup succeeds, a `KeyError`
otherwise — and no `DimensionMismatchError` exists. -/
theorem user_field_never_wrapped {A Ahat P : Type}
    (v2v : Grid → Ahat → Ahat × Ahat)
    (fvf : Nat → Grid → Rat → Rat → List (GridVariable A))
    (curl : List (GridVariable A) → A) (rfftn : A → Ahat)
    (sim_grid : Grid) (out_sizes : List OutSize) (method : String)
    (step_fn : KState A Ahat → KState A Ahat)
    (downsample_fn : Grid → List ((Nat × Nat) × Grid) →
      Option (Ahat → Ahat × Ahat) → Bool → KState A Ahat → P)
    (seed : Nat) (field : InitField A) (peak_wavenumber max_velocity : Rat)
    (inner_steps outer_steps warmup_steps : Nat) (out_vorticity : Bool) :
    ∃ e, generate_kolmogorov v2v fvf curl rfftn sim_grid out_sizes method
      step_fn downsample_fn seed (some field) peak_wavenumber max_velocity
      inner_steps outer_steps warmup_steps out_vorticity =
      Except.error e :=
  ⟨_, gen_user_field_err v2v fvf curl rfftn sim_grid out_sizes method
    step_fn downsample_fn seed field peak_wavenumber max_velocity
    inner_steps outer_steps warmup_steps out_vorticity⟩

/-- C10: for every call in which `initial_field` is supplied, whatever the
method, whenever the per-axis lookups all succeed (in particular when the
supplied fields match `grid.ndim`), the call fails with the `TypeError`
raised by invoking the `None`-valued `wrap_velocities` — before any time
stepping. -/
theorem user_field_hits_none_sentinel {A Ahat P : Type}
    (v2v : Grid → Ahat → Ahat × Ahat)
    (fvf : Nat → Grid → Rat → Rat → List (GridVariable A))
    (curl : List (GridVariable A) → A) (rfftn : A → Ahat)
    (sim_grid : Grid) (out_sizes : List OutSize) (method : String)
    (step_fn : KState A Ahat → KState A Ahat)
    (downsample_fn : Grid → List ((Nat × Nat) × Grid) →
      Option (Ahat → Ahat × Ahat) → Bool → KState A Ahat → P)
    (seed : Nat) (field : InitField A) (u : List A)
    (peak_wavenumber max_velocity : Rat)
    (inner_steps outer_steps warmup_steps : Nat) (out_vorticity : Bool)
    (hu : build_u field sim_grid.ndim = some u) :
    generate_kolmogorov v2v fvf curl rfftn sim_grid out_sizes method step_fn
      downsample_fn seed (some field) peak_wavenumber max_velocity
      inner_steps outer_steps warmup_steps out_vorticity =
    Except.error GenError.noneNotCallable := by
  rw [gen_user_field_err, hu]

/-- Witness for `user_field_hits_none_sentinel` at the concrete field whose
two per-axis arrays match the 2D grid. -/
theorem user_field_hits_none_sentinel_witness :
    cGen ("anything") (some cField) 2 3 =
      Except.error GenError.noneNotCallable := by
  have h := user_field_hits_none_sentinel cV2V cFVF cCurl cRfftn cGrid
    cOutSizes ("anything") cStep cDown 0 cField [[2, 2], [2, 2]] 4 7 1 3 2
    true (by rfl)
  exact h

/-- C6: for every valid 2D state and every requested output key whose size
equals the native grid size, both the spectral and the staggered
downsampling algorithms produce `vx`, `vy` (and `vorticity`, if requested)
equal to the native-resolution fields obtained without any downsampling —
for the spectral state the inverse transforms of the velocity solve of the
native `vorticity_hat`, for the staggered state the velocity components
passed through unchanged and the native discrete curl.  In the embedding the
equality is exact, which subsumes the floating-point tolerance of the
claim. -/
theorem identity_downsampling {A Ahat : Type}
    (irfftn : Ahat → A) (truncate : Grid → Ahat → Ahat)
    (solveAt : Grid → Ahat → Ahat × Ahat)
    (curl : List (GridVariable A) → A)
    (dsv : Grid → Grid → List (GridVariable A) → List (GridVariable A))
    (sim_grid : Grid) (out_grids : List ((Nat × Nat) × Grid))
    (velocity_solve : Ahat → Ahat × Ahat)
    (vsolve : Option (Ahat → Ahat × Ahat))
    (out_vorticity : Bool) (vorticity_hat : Ahat)
    (u : List (GridVariable A)) (u0 u1 : GridVariable A)
    (h2 : sim_grid.ndim = 2) (hu : u = [u0, u1]) :
    (∀ entry ∈ downsample_vorticity irfftn truncate solveAt sim_grid
        out_grids velocity_solve out_vorticity vorticity_hat,
      entry.1.1 = sim_grid.shape.getD 0 0 →
        entry.2.lookup ("vx") =
          some (irfftn (velocity_solve vorticity_hat).1) ∧
        entry.2.lookup ("vy") =
          some (irfftn (velocity_solve vorticity_hat).2) ∧
        (out_vorticity = true →
          entry.2.lookup ("vorticity") = some (irfftn vorticity_hat))) ∧
    (∀ entry ∈ downsample_velocity curl dsv sim_grid out_grids vsolve
        out_vorticity u,
      entry.1.1 = sim_grid.shape.getD 0 0 →
        entry.2.lookup ("vx") = some u0.data ∧
        entry.2.lookup ("vy") = some u1.data ∧
        (out_vorticity = true →
          entry.2.lookup ("vorticity") = some (curl u))) := by
  constructor
  · intro entry hmem hsize
    obtain ⟨kv, hkv, rfl⟩ := List.mem_map.1 hmem
    simp only at hsize
    simp only [vorticity_record, if_pos hsize]
    cases out_vorticity with
    | true => exact ⟨rfl, rfl, fun _ => rfl⟩
    | false =>
      refine ⟨rfl, rfl, fun h => ?_⟩
      exact absurd h (by simp)
  · intro entry hmem hsize
    obtain ⟨kv, hkv, rfl⟩ := List.mem_map.1 hmem
    simp only at hsize
    simp only [velocity_record, if_pos hsize, h2, hu]
    cases out_vorticity with
    | true =>
      refine ⟨?_, ?_, fun _ => ?_⟩ <;>
        simp [KEYS, List.lookup]
    | false =>
      refine ⟨?_, ?_, fun h => absurd h (by simp)⟩ <;>
        simp [KEYS, List.lookup]

/-- Witness for `identity_downsampling` at the concrete instantiation,
specialized to the native-size entry of each algorithm's output. -/
theorem identity_downsampling_witness :
    ((vorticity_record cRfftn cTrunc cSolveAt cGrid cGrid 2 (cV2V cGrid)
        true cVhat).lookup ("vx") = some (cRfftn (cV2V cGrid cVhat).1)) ∧
    ((vorticity_record cRfftn cTrunc cSolveAt cGrid cGrid 2 (cV2V cGrid)
        true cVhat).lookup ("vorticity") = some (cRfftn cVhat)) ∧
    ((velocity_record cCurl cDsv cGrid cGrid 2 true [cU0, cU0]).lookup
        ("vx") = some cU0.data) ∧
    ((velocity_record cCurl cDsv cGrid cGrid 2 true [cU0, cU0]).lookup
        ("vorticity") = some (cCurl [cU0, cU0])) := by
  have h := identity_downsampling cRfftn cTrunc cSolveAt cCurl cDsv cGrid
    (mk_out_grids cGrid cOutSizes) (cV2V cGrid) (some (cV2V cGrid)) true
    cVhat [cU0, cU0] cU0 cU0 rfl rfl
  have h1 := h.1 ((2, 1), vorticity_record cRfftn cTrunc cSolveAt cGrid
    cGrid 2 (cV2V cGrid) true cVhat) (by decide) rfl
  have h2 := h.2 ((2, 1), velocity_record cCurl cDsv cGrid cGrid 2 true
    [cU0, cU0]) (by decide) rfl
  exact ⟨h1.1, h1.2.2 rfl, h2.1, h2.2.2 rfl⟩

/-- C7: in the staggered real-space downsample, for every requested key
whose size is strictly smaller than the native grid size, the output
vorticity equals the discrete curl applied to the already-downsampled
velocity components (curl after restriction) — it is computed from
`downsample_staggered_velocity`'s output, never from the native-resolution
vorticity. -/
theorem coarse_vorticity_is_curl_after_restrict {A Ahat : Type}
    (curl : List (GridVariable A) → A)
    (dsv : Grid → Grid → List (GridVariable A) → List (GridVariable A))
    (sim_grid : Grid) (out_grids : List ((Nat × Nat) × Grid))
    (vsolve : Option (Ahat → Ahat × Ahat))
    (out_vorticity : Bool) (u : List (GridVariable A))
    (h2 : sim_grid.ndim = 2) (hov : out_vorticity = true) :
    ∀ entry ∈ downsample_velocity curl dsv sim_grid out_grids vsolve
      out_vorticity u,
      entry.1.1 < sim_grid.shape.getD 0 0 →
      ∃ og, (entry.1, og) ∈ out_grids ∧
        entry.2.lookup ("vorticity") =
          some (curl (dsv sim_grid og u)) := by
  intro entry hmem hlt
  obtain ⟨kv, hkv, rfl⟩ := List.mem_map.1 hmem
  simp only at hlt
  refine ⟨kv.2, by simpa using hkv, ?_⟩
  have hne : kv.1.1 ≠ sim_grid.shape.getD 0 0 := Nat.ne_of_lt hlt
  simp only [velocity_record, if_neg hne, h2, hov]
  rw [lookup_append_left _ _ _
    (lookup_vorticity_zip_none ((dsv sim_grid kv.2 u).map (fun g => g.data)))]
  rfl

/-- Witness for `coarse_vorticity_is_curl_after_restrict` at the concrete
instantiation, specialized to the coarser requested key of size 1. -/
theorem coarse_vorticity_is_curl_after_restrict_witness :
    ∃ og, ((1, 1), og) ∈ mk_out_grids cGrid cOutSizes2 ∧
      (velocity_record cCurl cDsv cGrid cCoarseGrid 1 true
        [cU0, cU0]).lookup ("vorticity") =
        some (cCurl (cDsv cGrid og [cU0, cU0])) := by
  have h := coarse_vorticity_is_curl_after_restrict cCurl cDsv cGrid
    (mk_out_grids cGrid cOutSizes2) (some (cV2V cGrid)) true [cU0, cU0]
    rfl rfl
  exact h ((1, 1), velocity_record cCurl cDsv cGrid cCoarseGrid 1 true
    [cU0, cU0]) (by decide) (by decide)

/-- C8: for every requested `(size, stride)` key, the record returned by
either downsampling algorithm has `vx` and `vy` arrays of shape exactly
`(size, size)`, and the `vorticity` entry is present in the record if and
only if `out_vorticity` is true and the grid dimensionality is 2.  The
hypotheses are the 2D dispatch context (`velocity_solve` is only built for
`ndim = 2`), the data-model invariants on the native state, the out-grid
shapes as built by `mk_out_grids`, and the shape contracts of the external
FFT/restriction kernels. -/
theorem shape_contract {A Ahat : Type}
    (shapeR : A → List Nat)
    (irfftn : Ahat → A) (truncate : Grid → Ahat → Ahat)
    (solveAt : Grid → Ahat → Ahat × Ahat)
    (curl : List (GridVariable A) → A)
    (dsv : Grid → Grid → List (GridVariable A) → List (GridVariable A))
    (sim_grid : Grid) (out_grids : List ((Nat × Nat) × Grid))
    (velocity_solve : Ahat → Ahat × Ahat)
    (vsolve : Option (Ahat → Ahat × Ahat))
    (out_vorticity : Bool) (vorticity_hat : Ahat)
    (u : List (GridVariable A)) (u0 u1 : GridVariable A) (n : Nat)
    (h2 : sim_grid.ndim = 2)
    (hsq : sim_grid.shape = [n, n])
    (hu : u = [u0, u1])
    (hu0 : shapeR u0.data = [n, n]) (hu1 : shapeR u1.data = [n, n])
    (hog : ∀ kv ∈ out_grids,
      kv.2.shape = List.replicate sim_grid.ndim kv.1.1)
    (hdsv : ∀ og : Grid, ∃ w0 w1 : GridVariable A,
      dsv sim_grid og u = [w0, w1] ∧ shapeR w0.data = og.shape ∧
        shapeR w1.data = og.shape)
    (hnat1 : shapeR (irfftn (velocity_solve vorticity_hat).1) =
      sim_grid.shape)
    (hnat2 : shapeR (irfftn (velocity_solve vorticity_hat).2) =
      sim_grid.shape)
    (hcoarse : ∀ og : Grid,
      shapeR (irfftn (solveAt og (truncate og vorticity_hat)).1) =
        og.shape ∧
      shapeR (irfftn (solveAt og (truncate og vorticity_hat)).2) =
        og.shape) :
    (∀ entry ∈ downsample_vorticity irfftn truncate solveAt sim_grid
        out_grids velocity_solve out_vorticity vorticity_hat,
      (∃ a, entry.2.lookup ("vx") = some a ∧
        shapeR a = [entry.1.1, entry.1.1]) ∧
      (∃ a, entry.2.lookup ("vy") = some a ∧
        shapeR a = [entry.1.1, entry.1.1]) ∧
      ((entry.2.lookup ("vorticity")).isSome = true ↔
        out_vorticity = true ∧ sim_grid.ndim = 2)) ∧
    (∀ entry ∈ downsample_velocity curl dsv sim_grid out_grids vsolve
        out_vorticity u,
      (∃ a, entry.2.lookup ("vx") = some a ∧
        shapeR a = [entry.1.1, entry.1.1]) ∧
      (∃ a, entry.2.lookup ("vy") = some a ∧
        shapeR a = [entry.1.1, entry.1.1]) ∧
      ((entry.2.lookup ("vorticity")).isSome = true ↔
        out_vorticity = true ∧ sim_grid.ndim = 2)) := by
  constructor
  · intro entry hmem
    obtain ⟨kv, hkv, rfl⟩ := List.mem_map.1 hmem
    simp only
    have hogk : kv.2.shape = [kv.1.1, kv.1.1] := by
      have hk := hog kv hkv
      rw [h2] at hk
      simpa using hk
    by_cases hsz : kv.1.1 = sim_grid.shape.getD 0 0
    · have hn : kv.1.1 = n := by rw [hsz, hsq]; rfl
      simp only [vorticity_record, if_pos hsz]
      cases out_vorticity with
      | true =>
        refine ⟨⟨_, rfl, ?_⟩, ⟨_, rfl, ?_⟩, ?_⟩
        · rw [hnat1, hsq, hn]
        · rw [hnat2, hsq, hn]
        · exact ⟨fun _ => ⟨rfl, h2⟩, fun _ => rfl⟩
      | false =>
        refine ⟨⟨_, rfl, ?_⟩, ⟨_, rfl, ?_⟩, ?_⟩
        · rw [hnat1, hsq, hn]
        · rw [hnat2, hsq, hn]
        · exact ⟨fun hc => absurd hc (by simp), fun hc => absurd hc.1
            (by simp)⟩
    · simp only [vorticity_record, if_neg hsz, downsample_vorticity_hat]
      cases out_vorticity with
      | true =>
        refine ⟨⟨_, rfl, ?_⟩, ⟨_, rfl, ?_⟩, ?_⟩
        · rw [(hcoarse kv.2).1, hogk]
        · rw [(hcoarse kv.2).2, hogk]
        · exact ⟨fun _ => ⟨rfl, h2⟩, fun _ => rfl⟩
      | false =>
        refine ⟨⟨_, rfl, ?_⟩, ⟨_, rfl, ?_⟩, ?_⟩
        · rw [(hcoarse kv.2).1, hogk]
        · rw [(hcoarse kv.2).2, hogk]
        · exact ⟨fun hc => absurd hc (by simp), fun hc => absurd hc.1
            (by simp)⟩
  · intro entry hmem
    obtain ⟨kv, hkv, rfl⟩ := List.mem_map.1 hmem
    simp only
    have hogk : kv.2.shape = [kv.1.1, kv.1.1] := by
      have hk := hog kv hkv
      rw [h2] at hk
      simpa using hk
    by_cases hsz : kv.1.1 = sim_grid.shape.getD 0 0
    · have hn : kv.1.1 = n := by rw [hsz, hsq]; rfl
      cases out_vorticity with
      | true =>
        have hrec : velocity_record curl dsv sim_grid kv.2 kv.1.1 true u =
            [("vx", u0.data), ("vy", u1.data), ("vorticity", curl u)] := by
          simp only [velocity_record]
          rw [if_pos hsz, h2, hu]
          rfl
        rw [hrec]
        refine ⟨⟨_, rfl, ?_⟩, ⟨_, rfl, ?_⟩, ?_⟩
        · rw [hu0, hn]
        · rw [hu1, hn]
        · exact ⟨fun _ => ⟨rfl, h2⟩, fun _ => rfl⟩
      | false =>
        have hrec : velocity_record curl dsv sim_grid kv.2 kv.1.1 false u =
            [("vx", u0.data), ("vy", u1.data)] := by
          simp only [velocity_record]
          rw [if_pos hsz, h2, hu]
          rfl
        rw [hrec]
        refine ⟨⟨_, rfl, ?_⟩, ⟨_, rfl, ?_⟩, ?_⟩
        · rw [hu0, hn]
        · rw [hu1, hn]
        · exact ⟨fun hc => absurd hc (by simp), fun hc => absurd hc.1
            (by simp)⟩
    · obtain ⟨w0, w1, hw, hw0, hw1⟩ := hdsv kv.2
      cases out_vorticity with
      | true =>
        have hrec : velocity_record curl dsv sim_grid kv.2 kv.1.1 true u =
            [("vx", w0.data), ("vy", w1.data),
             ("vorticity", curl (dsv sim_grid kv.2 u))] := by
          simp only [velocity_record]
          rw [if_neg hsz, h2, hw]
          rfl
        rw [hrec]
        refine ⟨⟨_, rfl, ?_⟩, ⟨_, rfl, ?_⟩, ?_⟩
        · rw [hw0, hogk]
        · rw [hw1, hogk]
        · exact ⟨fun _ => ⟨rfl, h2⟩, fun _ => rfl⟩
      | false =>
        have hrec : velocity_record curl dsv sim_grid kv.2 kv.1.1 false u =
            [("vx", w0.data), ("vy", w1.data)] := by
          simp only [velocity_record]
          rw [if_neg hsz, h2, hw]
          rfl
        rw [hrec]
        refine ⟨⟨_, rfl, ?_⟩, ⟨_, rfl, ?_⟩, ?_⟩
        · rw [hw0, hogk]
        · rw [hw1, hogk]
        · exact ⟨fun hc => absurd hc (by simp), fun hc => absurd hc.1
            (by simp)⟩

/-- Witness for `shape_contract` at the concrete instantiation (arrays are
their own shape lists) with one native-size and one coarser requested
key. -/
theorem shape_contract_witness :
    (∃ a, (vorticity_record cRfftn cTrunc cSolveAt cGrid cCoarseGrid 1
      (cV2V cGrid) true cVhat).lookup ("vx") = some a ∧ id a = [1, 1]) ∧
    ((vorticity_record cRfftn cTrunc cSolveAt cGrid cCoarseGrid 1
      (cV2V cGrid) true cVhat).lookup ("vorticity")).isSome = true ∧
    (∃ a, (velocity_record cCurl cDsv cGrid cCoarseGrid 1 true
      [cU0, cU0]).lookup ("vy") = some a ∧ id a = [1, 1]) ∧
    ((velocity_record cCurl cDsv cGrid cGrid 2 true
      [cU0, cU0]).lookup ("vorticity")).isSome = true := by
  have h := shape_contract id cRfftn cTrunc cSolveAt cCurl cDsv cGrid
    (mk_out_grids cGrid cOutSizes2) (cV2V cGrid) (some (cV2V cGrid)) true
    cVhat [cU0, cU0] cU0 cU0 2 rfl rfl rfl rfl rfl (by decide)
    (fun og => ⟨⟨og.shape⟩, ⟨og.shape⟩, rfl, rfl, rfl⟩) rfl rfl
    (fun og => ⟨rfl, rfl⟩)
  have h1 := h.1 ((1, 1), vorticity_record cRfftn cTrunc cSolveAt cGrid
    cCoarseGrid 1 (cV2V cGrid) true cVhat) (by decide)
  have h2 := h.2 ((1, 1), velocity_record cCurl cDsv cGrid cCoarseGrid 1
    true [cU0, cU0]) (by decide)
  have h3 := h.2 ((2, 1), velocity_record cCurl cDsv cGrid cGrid 2
    true [cU0, cU0]) (by decide)
  exact ⟨h1.1, h1.2.2.mpr ⟨rfl, rfl⟩, h2.2.1, h3.2.2.mpr ⟨rfl, rfl⟩⟩

end Fourierflow
